import Mathlib

/-
  Shallow embedding of `lib/buienradar.js` (the Buienradar API client) and
  proofs about the properties its specification states.

  Machine numbers are idealised as rationals (for coordinates, thresholds and
  counters) and reals (for the log-scale rain amount); timestamps are integer
  milliseconds since the epoch, as returned by `Date.prototype.getTime`.
-/

namespace Buienradar

/-! ## Numeric helpers shared by the embedding -/

/-- JavaScript `Math.round`: rounds half away from zero towards plus infinity,
i.e. `Math.round(x) = floor(x + 0.5)` for finite `x`. -/
def jsRound (q : ℚ) : ℤ := ⌊q + 1 / 2⌋

/-- `Math.round(x * 100) / 100` — the two-decimal rounding applied to
coordinates in the constructor (lines 19-20) and in `setLatLon` (lines 48-49). -/
def roundCoord (q : ℚ) : ℚ := (jsRound (q * 100) : ℚ) / 100

/-! ## Rain indication ladder (source lines 25-31 and 64-79) -/

/-- The `Buienradar.rainIndicators` constant object (source lines 25-31). -/
structure RainIndicatorSet where
  NO_RAIN : ℚ
  LIGHT_RAIN : ℚ
  MODERATE_RAIN : ℚ
  HEAVY_RAIN : ℚ
  VIOLENT_RAIN : ℚ

def rainIndicators : RainIndicatorSet :=
  { NO_RAIN := 1 / 10
    LIGHT_RAIN := 5 / 2
    MODERATE_RAIN := 10
    HEAVY_RAIN := 50
    VIOLENT_RAIN := 51 }

/-- The threshold ladder of `getRainIndication` for a numeric amount
(source lines 68-78). -/
def rainLadder (amount : ℚ) : ℚ :=
  if amount < 1 / 10 then rainIndicators.NO_RAIN
  else if amount < 5 / 2 then rainIndicators.LIGHT_RAIN
  else if amount < 10 then rainIndicators.MODERATE_RAIN
  else if amount < 50 then rainIndicators.HEAVY_RAIN
  else rainIndicators.VIOLENT_RAIN

/-- `getRainIndication` (source lines 64-79): `isNaN(amount)` is modelled by
the `none` case of the option (a non-numeric argument), in which case the
function returns the distinguished invalid result `false`, modelled as `none`;
a numeric argument goes through the threshold ladder. -/
def getRainIndication (amount : Option ℚ) : Option ℚ :=
  match amount with
  | none => none
  | some a => some (rainLadder a)

/-! ## The rain text parser (source lines 143-183)

A match of `rainDataRegex = /(\d*)\|([\d:]*)/g` with an `HH:MM` time group is
a pair of a coded intensity value and an embedded hour/minute; `Number` applied
to the captured digit string yields a non-negative integer (the empty capture
coerces to `0`). -/

/-- One `value|HH:MM` token of the raw rain text, in order of appearance. -/
structure RainToken where
  value : ℕ
  hh : ℕ
  mm : ℕ
  deriving DecidableEq, Repr

/-- The wall clock at parse time: `dayStart` is midnight of the current day in
epoch milliseconds and `msOfDay` the number of milliseconds elapsed since that
midnight, so `Date.now()` is `dayStart + msOfDay`. -/
structure Clock where
  dayStart : ℤ
  msOfDay : ℤ
  deriving DecidableEq, Repr

/-- `Date.now()` at parse time. -/
def Clock.nowMs (c : Clock) : ℤ := c.dayStart + c.msOfDay

/-- The timestamp of the first parsed sample (source lines 151-156):
`previousTime = new Date()` is today at the current time;
`setHours(hh, mm, 0)` replaces the hour, minute and second but keeps the
millisecond component; then the date is advanced by 24 hours exactly when the
resulting timestamp minus `Date.now()` exceeds 12 hours. -/
def firstSampleTime (c : Clock) (t : RainToken) : ℤ :=
  let base : ℤ := c.dayStart + ((t.hh : ℤ) * 3600 + (t.mm : ℤ) * 60) * 1000 + c.msOfDay % 1000
  if base - c.nowMs > 12 * 3600 * 1000 then base + 24 * 3600 * 1000 else base

/-- The amount formula of source lines 149 and 190:
`Math.round(Math.pow(10, (value - 109) / 32) * 100) / 100`. -/
noncomputable def rainAmount (v : ℕ) : ℝ :=
  ((round ((10 : ℝ) ^ (((v : ℝ) - 109) / 32) * 100) : ℤ) : ℝ) / 100

open Classical in
/-- The indication stored in a parsed sample
(`indication: this.getRainIndication(amount)`, source line 164); the amount is
always numeric here, so only the numeric ladder branch of lines 68-78 runs. -/
noncomputable def rainIndicationOfAmount (a : ℝ) : ℚ :=
  if a < 1 / 10 then rainIndicators.NO_RAIN
  else if a < 5 / 2 then rainIndicators.LIGHT_RAIN
  else if a < 10 then rainIndicators.MODERATE_RAIN
  else if a < 50 then rainIndicators.HEAVY_RAIN
  else rainIndicators.VIOLENT_RAIN

/-- One entry of the array built by `getRainData` (source lines 160-165). -/
structure RainSample where
  value : ℕ
  amount : ℝ
  time : ℤ
  indication : ℚ

/-- The sample pushed for a token given its already-computed timestamp. -/
noncomputable def mkRainSample (v : ℕ) (time : ℤ) : RainSample :=
  { value := v
    amount := rainAmount v
    time := time
    indication := rainIndicationOfAmount (rainAmount v) }

/-- Samples for every token after the first (source line 158): each timestamp
is the previous one plus `300 * 1000` milliseconds, the token's own embedded
time being ignored. -/
noncomputable def rainSamplesFrom (prev : ℤ) : List RainToken → List RainSample
  | [] => []
  | t :: ts =>
      let tm := prev + 300 * 1000
      mkRainSample t.value tm :: rainSamplesFrom tm ts

/-- The full result array of the `data.replace` loop (source lines 148-166):
the first token determines its timestamp from the clock, every later token
adds five minutes to its predecessor. -/
noncomputable def parseRainText (c : Clock) : List RainToken → List RainSample
  | [] => []
  | t :: ts =>
      let t0 := firstSampleTime c t
      mkRainSample t.value t0 :: rainSamplesFrom t0 ts

/-- The success gate of `getRainData` (source lines 169-182): the parse
resolves with the sample array when it holds more than one sample and rejects
otherwise. -/
noncomputable def getRainDataResult (c : Clock) (tokens : List RainToken) :
    Except String (List RainSample) :=
  let result := parseRainText c tokens
  if 1 < result.length then Except.ok result
  else Except.error "Could not get data from buienradar service, please try again later."

/-! ## Instance state, constructor and location handling
(source lines 10-23, 40-55, 120, 135-139, 393-408) -/

/-- The `config` object passed to the constructor; `requestCacheTimeout` may
be absent. A coordinate equal to `0` is numerically present but falsy in
JavaScript, which is what the truthiness checks below react to. -/
structure BuienradarConfig where
  lat : ℚ
  lon : ℚ
  requestCacheTimeout : Option ℚ
  deriving DecidableEq, Repr

/-- The mutable fields of a `Buienradar` instance together with the two
closure variables of the module that `resetCache` writes
(`rainDataCache`, line 120, and `nearestWeatherStationId`, line 254).
`latUsed`/`lonUsed` are `this._lat`/`this._lon` of `checkLocationChange`. -/
structure BuienradarState where
  lat : ℚ
  lon : ℚ
  requestCacheTimeout : ℚ
  latUsed : Option ℚ
  lonUsed : Option ℚ
  rainData : Option (List RainSample)
  rainDataCacheVar : Option (List RainSample)
  nearestWeatherStationId : Option String

/-- The constructor (source lines 10-23): returns (not throws) an `Error`
when the config is absent or either coordinate is falsy; otherwise rounds the
coordinates to two decimals and defaults the cache timeout with
`config.requestCacheTimeout || 1000`. -/
def mkBuienradar (config : Option BuienradarConfig) : Except String BuienradarState :=
  match config with
  | none => Except.error "Buienradar should be initiated with lat and lon config"
  | some c =>
      if c.lat = 0 ∨ c.lon = 0 then
        Except.error "Buienradar should be initiated with lat and lon config"
      else
        Except.ok
          { lat := roundCoord c.lat
            lon := roundCoord c.lon
            requestCacheTimeout :=
              match c.requestCacheTimeout with
              | some t => if t = 0 then 1000 else t
              | none => 1000
            latUsed := none
            lonUsed := none
            rainData := none
            rainDataCacheVar := none
            nearestWeatherStationId := none }

/-- `resetCache` (source lines 405-408): nulls the closure variable
`rainDataCache` and the memoised station id. It does not touch
`this.rainData`, the field `getRainData` actually caches into. -/
def resetCache (s : BuienradarState) : BuienradarState :=
  { s with rainDataCacheVar := none, nearestWeatherStationId := none }

/-- `setLatLon` on two numeric coordinates (source lines 40-51): rounds both
to two decimals and calls `resetCache`. -/
def setLatLon (lat lon : ℚ) (s : BuienradarState) : BuienradarState :=
  resetCache { s with lat := roundCoord lat, lon := roundCoord lon }

/-- `checkLocationChange` (source lines 393-400): when the current coordinates
differ from the pair recorded at the last cache-bearing read, record them and
call `resetCache`. -/
def checkLocationChange (s : BuienradarState) : BuienradarState :=
  if s.latUsed = some s.lat ∧ s.lonUsed = some s.lon then s
  else resetCache { s with latUsed := some s.lat, lonUsed := some s.lon }

/-- What the cache check of `getRainData` decides to do next. -/
inductive RainDataAction where
  | cached (samples : List RainSample)
  | fetch

/-- The cache decision of `getRainData` (source lines 135-139): after
`checkLocationChange`, a present `this.rainData` is served whenever
`forceRefresh` is off and the cache timeout is truthy; otherwise a fresh
fetch is started. -/
def getRainDataStep (forceRefresh : Bool) (s : BuienradarState) :
    BuienradarState × RainDataAction :=
  let s1 := checkLocationChange s
  if forceRefresh = false ∧ s1.requestCacheTimeout ≠ 0 then
    match s1.rainData with
    | some d => (s1, RainDataAction.cached d)
    | none => (s1, RainDataAction.fetch)
  else (s1, RainDataAction.fetch)

/-! ## The raw rain data race (source lines 86-117) -/

/-- One `request` callback invocation: `error` is the transport error flag and
`body` the response body (absent on a transport failure). -/
structure RainResponse where
  error : Bool
  body : Option String
  deriving DecidableEq, Repr

/-- Truthiness of `body.match(rainDataRegex)`: the pattern
`(\d*)\|([\d:]*)` has only the pipe as a mandatory character, so a body
matches exactly when it contains a pipe. -/
def matchesRainText (s : String) : Bool := s.data.any (fun ch => ch = Char.ofNat 124)

/-- The per-response callback of source lines 101-110. The first component is
`responseCounter` after the callback: the source declares the counter at line
91 and never increments it, so it is returned unchanged. A matching body
resolves; otherwise the callback rejects with the no-data error only when the
counter equals `urlList.length = 2` (an empty body is falsy in the source and
lands in the same else-branch as a non-matching one). -/
def responseStep (counter : ℕ) (r : RainResponse) : ℕ × Option (Except String String) :=
  (counter,
    match r.body with
    | some b =>
        if matchesRainText b then some (Except.ok b)
        else if counter = 2 then some (Except.error "No url received rain data")
        else none
    | none =>
        if counter = 2 then some (Except.error "No url received rain data")
        else none)

/-- The first settlement produced by the URL promises when their responses
arrive in the given order, threading `responseCounter` through the callbacks;
`none` when no URL promise ever settles. -/
def raceSettle : ℕ → List RainResponse → Option (Except String String)
  | _, [] => none
  | n, r :: rest =>
      match responseStep n r with
      | (n1, none) => raceSettle n1 rest
      | (_, some out) => some out

/-- `Promise.race` over the two URL promises and the five-second timer
(source lines 97-112): if no URL promise settles, the timer is the only
remaining competitor and the race rejects with `timeout`. -/
def getRawRainDataRace (responses : List RainResponse) : Except String String :=
  (raceSettle 0 responses).getD (Except.error "timeout")

/-- `getRawRainData` (source lines 86-117): rejects at once when either
coordinate is falsy, otherwise races the endpoint responses. -/
def getRawRainData (s : BuienradarState) (responses : List RainResponse) :
    Except String String :=
  if s.lat = 0 ∨ s.lon = 0 then
    Except.error "Location is not set properly, please check location settings and try again."
  else getRawRainDataRace responses

/-! ## Weather stations and the nearest-station scan (source lines 282-336) -/

/-- One `weerstation` entry of the parsed feed. Besides the identifying and
positional fields, the remaining parameters (`luchtdruk`, `regenMMPU`, ...)
are an association list from parameter name to rendered string value; an
absent key models a field the XML did not carry. -/
structure WeatherStation where
  stationcode : String
  lat : ℚ
  lon : ℚ
  params : List (String × String)
  deriving DecidableEq, Repr

/-- Reading `weatherStation[param]`. -/
def stationParam (ws : WeatherStation) (p : String) : Option String :=
  ws.params.lookup p

/-- The skip test of source line 296 for one parameter:
`!(weatherStation[param] && weatherStation[param] !== '-')` holds when the
field is absent, the empty string (falsy) or the sentinel dash. -/
def paramMissing (ws : WeatherStation) (p : String) : Bool :=
  match stationParam ws p with
  | none => true
  | some v => v = "" ∨ v = "-"

/-- The accumulated `skip` flag of source lines 294-300: true when any listed
parameter is missing. With `requireParams` absent no station is skipped. -/
def skipStation (requireParams : Option (List String)) (ws : WeatherStation) : Bool :=
  match requireParams with
  | none => false
  | some ps => ps.any (fun p => paramMissing ws p)

/-- `findNearestWeatherStation` (source lines 288-313), parameterised by the
external `geodist` distance function. The fold keeps the running best match;
a candidate wins when no distance is recorded yet, the recorded distance is
`0` (falsy, `!nearestDistance`) or the candidate is strictly nearer. -/
def findNearestWeatherStation (dist : WeatherStation → ℚ)
    (requireParams : Option (List String)) (stations : List WeatherStation) :
    Option WeatherStation :=
  (stations.foldl
    (fun best ws =>
      if skipStation requireParams ws then best
      else
        let d := dist ws
        match best with
        | none => some (ws, d)
        | some (b, nd) => if nd = 0 ∨ d < nd then some (ws, d) else some (b, nd))
    none).map Prod.fst

/-! ## Feed data, its cache and the accessors
(source lines 204-252 and 282-388) -/

/-- A `dag-plusN` forecast record; its payload is opaque to the accessors. -/
structure DayForecast where
  datum : String
  deriving DecidableEq, Repr

/-- A value as the forecast accessor sees it: the XML summary fields arrive as
a text/attribute wrapper object, become the attribute string after
`x = x['$']`, and reading `'$'` of a plain string yields `undefined`. -/
inductive JsVal where
  | wrapped (text attr : String)
  | str (s : String)
  | undef
  deriving DecidableEq, Repr

/-- Reading the `'$'` property of a value (source lines 374-375). -/
def JsVal.attrField : JsVal → JsVal
  | JsVal.wrapped _ a => JsVal.str a
  | _ => JsVal.undef

/-- The `verwachting_meerdaags` block: `dagPlus` holds the `dag-plus1`,
`dag-plus2`, ... keys in order (`none` for a deleted or absent key), `dagen`
the array the accessor writes, and the two free-text summary fields. -/
structure Meerdaags where
  dagPlus : List (Option DayForecast)
  dagen : List DayForecast
  tekst_middellang : JsVal
  tekst_lang : JsVal
  deriving DecidableEq, Repr

/-- The `weergegevens` structure cached by `getFeedData`. -/
structure FeedData where
  stations : List WeatherStation
  verwachting_meerdaags : Meerdaags
  verwachting_vandaag : String
  deriving DecidableEq, Repr

/-- The identifiers the module itself binds at top level: the three requires
of source lines 3-5 and the constructor of line 10. -/
def moduleTopLevel : List String := ["request", "geodist", "xmlParser", "Buienradar"]

/-- The host-environment globals the module relies on. Node exposes no global
named `http`; the core modules only enter scope through `require`, and the
module never requires `http`. -/
def nodeGlobals : List String :=
  ["require", "module", "console", "Math", "Date", "Promise", "JSON",
   "setTimeout", "clearTimeout", "isNaN"]

/-- Whether an identifier resolves inside the module body. -/
def inScope (x : String) : Bool := moduleTopLevel.contains x || nodeGlobals.contains x

/-- `getRawFeedData` (source lines 204-222): the executor evaluates
`http.request(...)` first, so when `http` does not resolve the executor throws
a `ReferenceError` which the promise constructor turns into a rejection;
otherwise the promise behaves as the underlying transport. -/
def getRawFeedData (transport : Except String String) : Except String String :=
  if inScope "http" then transport
  else Except.error "ReferenceError: http is not defined"

/-- The external collaborators of the feed path: the HTTP transport and the
`xml2js` parse combined with the envelope check of source line 239
(`result.buienradarnl.weergegevens`, `none` on a parse error or a missing
envelope). -/
structure FeedEnv where
  transport : Except String String
  parseXml : String → Option FeedData

/-- The fetch-and-parse branch of `getFeedData` (source lines 233-250). -/
def fetchAndParseFeed (env : FeedEnv) : Except String FeedData :=
  match getRawFeedData env.transport with
  | Except.error e => Except.error e
  | Except.ok body =>
      match env.parseXml body with
      | some d => Except.ok d
      | none => Except.error "Got invalid response from server"

/-- `getFeedData` (source lines 229-252): a present cache entry is served when
the cache timeout is truthy; otherwise the feed is fetched and parsed. -/
def getFeedData (env : FeedEnv) (cache : Option FeedData) (rct : ℚ) :
    Except String FeedData :=
  match cache with
  | some d => if rct ≠ 0 then Except.ok d else fetchAndParseFeed env
  | none => fetchAndParseFeed env

/-- Normalisation of the selected station (source lines 329-331): a dash
rain-rate sentinel is overwritten with zero (the number `0` in the source,
rendered here as its string). -/
def normalizeRegen (ws : WeatherStation) : WeatherStation :=
  if stationParam ws "regenMMPU" = some "-" then
    { ws with params := ws.params.map (fun kv => if kv.1 = "regenMMPU" then (kv.1, "0") else kv) }
  else ws

/-- The body of `getNearestWeatherStationData` after the feed resolved
(source lines 285-334), returning the updated memoised station id and the
settlement. With a non-empty `requireParams` a fresh scan runs every call
(the result of `requireParams.filter(param => param !== 'regenMMPU')` at line
317 is discarded by the source, so the unfiltered list is what the scan
receives); with no requirement the first scan memoises the station id, and a
later call with a memoised id evaluates `data.find(...)` on the parsed
`weergegevens` object, which is not an array and has no `find` method. -/
def nearestFromFeed (dist : WeatherStation → ℚ) (requireParams : Option (List String))
    (memo : Option String) (d : FeedData) :
    Option String × Except String WeatherStation :=
  let freshScan : Option String × Except String WeatherStation :=
    match findNearestWeatherStation dist requireParams d.stations with
    | none => (memo, Except.error "Could not get nearest weather station from data")
    | some ws => (some ws.stationcode, Except.ok (normalizeRegen ws))
  match requireParams with
  | some ps =>
      if ps ≠ [] then
        match findNearestWeatherStation dist requireParams d.stations with
        | none => (memo, Except.error "Could not get nearest weather station from data")
        | some ws => (memo, Except.ok (normalizeRegen ws))
      else
        match memo with
        | none => freshScan
        | some _ => (memo, Except.error "TypeError: data.find is not a function")
  | none =>
      match memo with
      | none => freshScan
      | some _ => (memo, Except.error "TypeError: data.find is not a function")

/-- `getNearestWeatherStationData` (source lines 282-336) on top of the feed
cache. -/
def getNearestWeatherStationData (env : FeedEnv) (dist : WeatherStation → ℚ)
    (requireParams : Option (List String)) (memo : Option String)
    (cache : Option FeedData) (rct : ℚ) :
    Option String × Except String WeatherStation :=
  match getFeedData env cache rct with
  | Except.error e => (memo, Except.error e)
  | Except.ok d => nearestFromFeed dist requireParams memo d

/-- The `while (data.verwachting_meerdaags[dag-plusN])` loop of source lines
367-373: collect the day records up to the first absent key and delete the
collected keys. Returns the collected array and the key list after the
deletions. -/
def collectDays : List (Option DayForecast) → List DayForecast × List (Option DayForecast)
  | [] => ([], [])
  | none :: rest => ([], none :: rest)
  | some d :: rest =>
      let r := collectDays rest
      (d :: r.1, none :: r.2)

/-- The in-place transformation `getWeatherForecast` applies to the
`verwachting_meerdaags` block it then returns (source lines 366-376). -/
def forecastTransform (m : Meerdaags) : Meerdaags :=
  let c := collectDays m.dagPlus
  { dagPlus := c.2
    dagen := c.1
    tekst_middellang := m.tekst_middellang.attrField
    tekst_lang := m.tekst_lang.attrField }

/-- `getWeatherForecast` (source lines 364-378): resolve the feed, mutate its
`verwachting_meerdaags` block in place and return that same block. The first
component is the feed cache afterwards — the cached object is the mutated
one. -/
def getWeatherForecast (env : FeedEnv) (cache : Option FeedData) (rct : ℚ) :
    Option FeedData × Except String Meerdaags :=
  match getFeedData env cache rct with
  | Except.error e => (cache, Except.error e)
  | Except.ok d =>
      let m := forecastTransform d.verwachting_meerdaags
      (some { d with verwachting_meerdaags := m }, Except.ok m)

/-- `getCurrentWeather` (source lines 384-388). -/
def getCurrentWeather (env : FeedEnv) (cache : Option FeedData) (rct : ℚ) :
    Except String String :=
  match getFeedData env cache rct with
  | Except.error e => Except.error e
  | Except.ok d => Except.ok d.verwachting_vandaag

/-! ## The cache TTL timers as a transition system
(source lines 169-178, 229-252)

One `Buienradar` instance drives the two cache slots. The rain slot's state
is `this.rainData`, the stored timer handle `this.rainDataCacheTimeout` and
the set of pending rain timers; the feed slot's state is the truthiness of
the closure variable `feedDataCache`, the number of outstanding feed fetches
and the number of pending feed timers (the feed path never stores a timer
handle). `cfgTTL` is the truthiness of `this.requestCacheTimeout`, fixed at
construction. -/

structure TimerState where
  cfgTTL : Bool
  rainCache : Bool
  rainPending : List ℕ
  rainStored : Option ℕ
  feedSlotSet : Bool
  feedInFlight : ℕ
  feedPending : ℕ
  nextHandle : ℕ
  deriving DecidableEq, Repr

/-- The fresh instance: no caches, no timers, no fetches. -/
def initTimerState (ttl : Bool) : TimerState :=
  { cfgTTL := ttl
    rainCache := false
    rainPending := []
    rainStored := none
    feedSlotSet := false
    feedInFlight := 0
    feedPending := 0
    nextHandle := 0 }

/-- The `clearTimeout(this.rainDataCacheTimeout)` of source line 173: cancel
the pending timer named by the stored handle, if any. -/
def cancelStored (pending : List ℕ) (stored : Option ℕ) : List ℕ :=
  match stored with
  | some h => pending.erase h
  | none => pending

/-- The events that touch the cache slots and their timers. -/
inductive TimerEvent where
  | feedFetchStart
  | feedParseSuccess
  | feedParseFail
  | feedFetchReject
  | feedTimerFire
  | rainParseSuccess
  | rainParseFail
  | rainTimerFire (h : ℕ)
  deriving DecidableEq, Repr

/-- When an event can occur. A feed fetch starts only when the branch
`this.requestCacheTimeout && feedDataCache` of source line 230 is falsy;
completions need an outstanding fetch; a timer fires only while pending; the
rain success path of lines 171-178 runs only with a truthy cache timeout. -/
def timerGuard (s : TimerState) : TimerEvent → Prop
  | TimerEvent.feedFetchStart => s.cfgTTL = false ∨ s.feedSlotSet = false
  | TimerEvent.feedParseSuccess => 0 < s.feedInFlight
  | TimerEvent.feedParseFail => 0 < s.feedInFlight
  | TimerEvent.feedFetchReject => 0 < s.feedInFlight
  | TimerEvent.feedTimerFire => 0 < s.feedPending
  | TimerEvent.rainParseSuccess => s.cfgTTL = true
  | TimerEvent.rainParseFail => True
  | TimerEvent.rainTimerFire h => h ∈ s.rainPending

/-- The effect of an event. A feed parse success installs a TTL timer with no
cancellation (source line 245); a rain parse success stores and caches, then
cancels the stored timer handle and installs a fresh one (lines 172-177); a
firing timer clears its slot; a feed parse failure nulls the slot; a rain
parse failure nulls `this.rainData` but touches no timer (line 181); a feed
fetch rejection leaves the rejected promise in the slot. -/
def timerApply (s : TimerState) : TimerEvent → TimerState
  | TimerEvent.feedFetchStart =>
      { s with feedSlotSet := true, feedInFlight := s.feedInFlight + 1 }
  | TimerEvent.feedParseSuccess =>
      { s with
        feedInFlight := s.feedInFlight - 1
        feedPending := if s.cfgTTL then s.feedPending + 1 else s.feedPending }
  | TimerEvent.feedParseFail =>
      { s with feedInFlight := s.feedInFlight - 1, feedSlotSet := false }
  | TimerEvent.feedFetchReject =>
      { s with feedInFlight := s.feedInFlight - 1 }
  | TimerEvent.feedTimerFire =>
      { s with feedPending := s.feedPending - 1, feedSlotSet := false }
  | TimerEvent.rainParseSuccess =>
      { s with
        rainCache := true
        rainPending := s.nextHandle :: cancelStored s.rainPending s.rainStored
        rainStored := some s.nextHandle
        nextHandle := s.nextHandle + 1 }
  | TimerEvent.rainParseFail =>
      { s with rainCache := false }
  | TimerEvent.rainTimerFire h =>
      { s with rainPending := s.rainPending.erase h, rainCache := false }

/-- One step of the timer system: some enabled event fires. -/
def TimerStep (s s1 : TimerState) : Prop :=
  ∃ e, timerGuard s e ∧ s1 = timerApply s e

/-- The states one instance can actually be in. -/
inductive TimerReachable : TimerState → Prop where
  | init (ttl : Bool) : TimerReachable (initTimerState ttl)
  | step {s s1 : TimerState} : TimerReachable s → TimerStep s s1 → TimerReachable s1

/-- The inductive invariant that carries the at-most-one-timer property. -/
def TimerInv (s : TimerState) : Prop :=
  s.rainPending.length ≤ 1 ∧
  (∀ h ∈ s.rainPending, s.rainStored = some h) ∧
  s.feedPending ≤ 1 ∧
  (s.cfgTTL = true →
    s.feedInFlight ≤ 1 ∧
    (0 < s.feedPending → s.feedInFlight = 0 ∧ s.feedSlotSet = true) ∧
    (0 < s.feedInFlight → s.feedPending = 0 ∧ s.feedSlotSet = true) ∧
    (s.feedSlotSet = false → s.feedPending = 0 ∧ s.feedInFlight = 0)) ∧
  (s.cfgTTL = false → s.feedPending = 0)

/-! ## Concrete input data used by the evaluation theorems -/

/-- A concrete cached rain sequence (the payload is irrelevant). -/
noncomputable def c2CachedSamples : List RainSample :=
  [{ value := 55, amount := 97 / 100, time := 0, indication := 1 / 10 }]

/-- An instance that has rain data cached for the location `(52.1, 6.2)` and
a memoised nearest station. -/
noncomputable def c2State : BuienradarState :=
  { lat := 521 / 10
    lon := 31 / 5
    requestCacheTimeout := 1000
    latUsed := some (521 / 10)
    lonUsed := some (31 / 5)
    rainData := some c2CachedSamples
    rainDataCacheVar := some c2CachedSamples
    nearestWeatherStationId := some "6391" }

/-- The geographically nearest station; its rain-rate field is the dash
sentinel. -/
def stationA : WeatherStation :=
  { stationcode := "A", lat := 52, lon := 6, params := [("regenMMPU", "-")] }

/-- A farther station with a real rain-rate reading. -/
def stationB : WeatherStation :=
  { stationcode := "B", lat := 53, lon := 7, params := [("regenMMPU", "0.5")] }

/-- A distance function under which station A is nearest. -/
def distAB : WeatherStation → ℚ := fun ws => if ws.stationcode = "A" then 1 else 10

/-- A state of the timer system with one pending feed timer and one feed
fetch outstanding. -/
def feedBadState : TimerState :=
  { cfgTTL := true
    rainCache := false
    rainPending := []
    rainStored := none
    feedSlotSet := true
    feedInFlight := 1
    feedPending := 1
    nextHandle := 0 }

/-! ## Small helper lemmas -/

@[simp] lemma mkRainSample_value (v : ℕ) (t : ℤ) : (mkRainSample v t).value = v := rfl

@[simp] lemma mkRainSample_time (v : ℕ) (t : ℤ) : (mkRainSample v t).time = t := rfl

@[simp] lemma mkRainSample_amount (v : ℕ) (t : ℤ) :
    (mkRainSample v t).amount = rainAmount v := rfl

lemma rainSamplesFrom_length (ts : List RainToken) (prev : ℤ) :
    (rainSamplesFrom prev ts).length = ts.length := by
  induction ts generalizing prev with
  | nil => simp [rainSamplesFrom]
  | cons t ts ih => simp [rainSamplesFrom, ih]

lemma parseRainText_length (c : Clock) (ts : List RainToken) :
    (parseRainText c ts).length = ts.length := by
  cases ts with
  | nil => simp [parseRainText]
  | cons t ts => simp [parseRainText, rainSamplesFrom_length]

lemma rainSamplesFrom_cons_get?_zero (t : RainToken) (ts : List RainToken) (prev : ℤ) :
    (rainSamplesFrom prev (t :: ts)).get? 0 =
      some (mkRainSample t.value (prev + 300 * 1000)) := rfl

lemma rainSamplesFrom_cons_get?_succ (t : RainToken) (ts : List RainToken) (prev : ℤ) (n : ℕ) :
    (rainSamplesFrom prev (t :: ts)).get? (n + 1) =
      (rainSamplesFrom (prev + 300 * 1000) ts).get? n := rfl

lemma rainSamplesFrom_get? (ts : List RainToken) (prev : ℤ) (i : ℕ) :
    (rainSamplesFrom prev ts).get? i =
      (ts.get? i).map (fun t => mkRainSample t.value (prev + 300 * 1000 * (i + 1))) := by
  induction ts generalizing prev i with
  | nil => simp [rainSamplesFrom]
  | cons t ts ih =>
      cases i with
      | zero =>
          rw [rainSamplesFrom_cons_get?_zero, List.get?_cons_zero, Option.map_some']
          norm_num
      | succ n =>
          rw [rainSamplesFrom_cons_get?_succ, ih, List.get?_cons_succ]
          apply Option.map_congr
          intro tok _
          congr 1
          push_cast
          ring

lemma rainSamplesFrom_congr (ts ts2 : List RainToken) (prev : ℤ)
    (h : ts.map RainToken.value = ts2.map RainToken.value) :
    rainSamplesFrom prev ts = rainSamplesFrom prev ts2 := by
  induction ts generalizing ts2 prev with
  | nil =>
      cases ts2 with
      | nil => rfl
      | cons u us => simp at h
  | cons t ts ih =>
      cases ts2 with
      | nil => simp at h
      | cons u us =>
          simp only [List.map_cons, List.cons.injEq] at h
          simp [rainSamplesFrom, h.1, ih us _ h.2]

/-! ## C7 — shape of the parsed rain series -/

/-- C7: on a raw rain text with at least two tokens, `getRainData` resolves
with one sample per token in order of appearance; each sample's amount is
`Math.round(Math.pow(10, (value - 109) / 32) * 100) / 100`; each sample after
the first is timestamped exactly five minutes after its predecessor; and the
embedded time fields of the non-first tokens are ignored by the parse. -/
theorem parseRain_samples_spec (c : Clock) (tokens : List RainToken)
    (h2 : 2 ≤ tokens.length) :
    ∃ samples,
      getRainDataResult c tokens = Except.ok samples ∧
      samples.length = tokens.length ∧
      (∀ i t, tokens.get? i = some t → ∃ s, samples.get? i = some s ∧
        s.value = t.value ∧
        s.amount = ((round ((10 : ℝ) ^ (((t.value : ℝ) - 109) / 32) * 100) : ℤ) : ℝ) / 100) ∧
      (∀ i s1 s2, samples.get? i = some s1 → samples.get? (i + 1) = some s2 →
        s2.time = s1.time + 300 * 1000) ∧
      (∀ t0 ts ts2, tokens = t0 :: ts →
        ts.map RainToken.value = ts2.map RainToken.value →
        parseRainText c (t0 :: ts2) = parseRainText c tokens) := by
  obtain ⟨t0, rest, rfl⟩ : ∃ t0 rest, tokens = t0 :: rest := by
    cases tokens with
    | nil => simp at h2
    | cons a l => exact ⟨a, l, rfl⟩
  refine ⟨parseRainText c (t0 :: rest), ?_, parseRainText_length c _, ?_, ?_, ?_⟩
  · have hlen : 1 < (parseRainText c (t0 :: rest)).length := by
      rw [parseRainText_length]
      omega
    simp only [getRainDataResult]
    rw [if_pos hlen]
  · intro i t ht
    cases i with
    | zero =>
        rw [List.get?_cons_zero] at ht
        injection ht with hte
        subst hte
        exact ⟨mkRainSample t0.value (firstSampleTime c t0), rfl, rfl, rfl⟩
    | succ n =>
        rw [List.get?_cons_succ] at ht
        have h := rainSamplesFrom_get? rest (firstSampleTime c t0) n
        rw [ht, Option.map_some'] at h
        refine ⟨mkRainSample t.value (firstSampleTime c t0 + 300 * 1000 * (n + 1)), ?_, rfl, rfl⟩
        show (rainSamplesFrom (firstSampleTime c t0) rest).get? n = _
        rw [h]
  · intro i s1 s2 h1 h2c
    cases i with
    | zero =>
        have e1 : (parseRainText c (t0 :: rest)).get? 0 =
            some (mkRainSample t0.value (firstSampleTime c t0)) := rfl
        rw [e1] at h1
        injection h1 with h1e
        have e2 : (parseRainText c (t0 :: rest)).get? (0 + 1) =
            (rainSamplesFrom (firstSampleTime c t0) rest).get? 0 := rfl
        rw [e2, rainSamplesFrom_get?] at h2c
        rcases Option.map_eq_some'.mp h2c with ⟨u, _, hs2⟩
        rw [← h1e, ← hs2]
        simp only [mkRainSample_time]
        push_cast
        ring
    | succ n =>
        have e1 : (parseRainText c (t0 :: rest)).get? (n + 1) =
            (rainSamplesFrom (firstSampleTime c t0) rest).get? n := rfl
        have e2 : (parseRainText c (t0 :: rest)).get? (n + 1 + 1) =
            (rainSamplesFrom (firstSampleTime c t0) rest).get? (n + 1) := rfl
        rw [e1, rainSamplesFrom_get?] at h1
        rw [e2, rainSamplesFrom_get?] at h2c
        rcases Option.map_eq_some'.mp h1 with ⟨u1, _, hs1⟩
        rcases Option.map_eq_some'.mp h2c with ⟨u2, _, hs2⟩
        rw [← hs1, ← hs2]
        simp only [mkRainSample_time]
        push_cast
        ring
  · intro t0' ts ts2 heq hmap
    cases heq
    simp only [parseRainText]
    rw [rainSamplesFrom_congr ts2 rest _ hmap.symm]

/-- Witness for C7 at the three-token text `55|14:30 60|14:35 70|14:40`
parsed at 14:32:00.000. -/
theorem parseRain_samples_spec_witness :
    2 ≤ ([⟨55, 14, 30⟩, ⟨60, 14, 35⟩, ⟨70, 14, 40⟩] : List RainToken).length ∧
    ∃ samples,
      getRainDataResult ⟨0, 52320000⟩ [⟨55, 14, 30⟩, ⟨60, 14, 35⟩, ⟨70, 14, 40⟩] =
        Except.ok samples ∧
      samples.length = 3 := by
  have h := parseRain_samples_spec ⟨0, 52320000⟩
    [⟨55, 14, 30⟩, ⟨60, 14, 35⟩, ⟨70, 14, 40⟩] (by decide)
  rcases h with ⟨samples, hok, hlen, _⟩
  refine ⟨by decide, samples, hok, ?_⟩
  rw [hlen]
  rfl

/-! ## C8 — the rain indication ladder -/

/-- C8: `getRainIndication` is total over numeric amounts, assigning exactly
one indication value per amount; it is monotone over the non-negative
amounts; its boundary behaviour is left-closed right-open at 0.1, 2.5, 10 and
50; and a non-numeric argument yields the distinguished invalid result. -/
theorem getRainIndication_spec :
    getRainIndication none = none ∧
    (∀ a : ℚ, getRainIndication (some a) = some (rainLadder a)) ∧
    (∀ a b : ℚ, 0 ≤ a → a ≤ b → rainLadder a ≤ rainLadder b) ∧
    getRainIndication (some (99 / 1000)) = some rainIndicators.NO_RAIN ∧
    getRainIndication (some (1 / 10)) = some rainIndicators.LIGHT_RAIN ∧
    getRainIndication (some (2499 / 1000)) = some rainIndicators.LIGHT_RAIN ∧
    getRainIndication (some (5 / 2)) = some rainIndicators.MODERATE_RAIN ∧
    getRainIndication (some (9999 / 1000)) = some rainIndicators.MODERATE_RAIN ∧
    getRainIndication (some 10) = some rainIndicators.HEAVY_RAIN ∧
    getRainIndication (some (49999 / 1000)) = some rainIndicators.HEAVY_RAIN ∧
    getRainIndication (some 50) = some rainIndicators.VIOLENT_RAIN := by
  have hb : ∀ x : ℚ, getRainIndication (some x) = some (rainLadder x) := fun x => rfl
  refine ⟨rfl, hb, ?_, ?_, ?_, ?_, ?_, ?_, ?_, ?_, ?_⟩
  · intro a b _ hab
    simp only [rainLadder, rainIndicators]
    split_ifs <;> norm_num <;> linarith
  all_goals
    rw [hb]
    norm_num [rainLadder, rainIndicators]

/-- Witness for C8: the monotonicity part applied at the amounts 0 and 3. -/
theorem getRainIndication_spec_witness :
    (0 : ℚ) ≤ 0 ∧ (0 : ℚ) ≤ 3 ∧ rainLadder 0 ≤ rainLadder 3 :=
  ⟨le_refl 0, by norm_num, getRainIndication_spec.2.2.1 0 3 (le_refl 0) (by norm_num)⟩

/-! ## C9 — zero coordinates are treated as absent -/

/-- C9: latitude or longitude `0`, although a valid coordinate, makes the
constructor return the missing-config error, and makes `getRawRainData`
reject with the location-not-set error, because both sites test the
coordinates for truthiness. -/
theorem zero_coordinates_treated_missing :
    (∀ (lon : ℚ) (rct : Option ℚ),
      mkBuienradar (some { lat := 0, lon := lon, requestCacheTimeout := rct }) =
        Except.error "Buienradar should be initiated with lat and lon config") ∧
    (∀ (lat : ℚ) (rct : Option ℚ),
      mkBuienradar (some { lat := lat, lon := 0, requestCacheTimeout := rct }) =
        Except.error "Buienradar should be initiated with lat and lon config") ∧
    (∀ (s : BuienradarState) (responses : List RainResponse),
      getRawRainData { s with lat := 0 } responses =
        Except.error
          "Location is not set properly, please check location settings and try again.") ∧
    (∀ (s : BuienradarState) (responses : List RainResponse),
      getRawRainData { s with lon := 0 } responses =
        Except.error
          "Location is not set properly, please check location settings and try again.") := by
  refine ⟨fun lon rct => ?_, fun lat rct => ?_, fun s responses => ?_, fun s responses => ?_⟩
  · simp [mkBuienradar]
  · simp [mkBuienradar]
  · simp [getRawRainData]
  · simp [getRawRainData]

/-! ## C1 — the day-boundary roll of the first timestamp -/

/-- C1: evaluating the first-sample timestamp at the spec's own example —
a text parsed at 23:50:00.000 whose first sample reads `00:05` — the code
keeps the sample on today's date (00:05 today, 300000 ms after midnight) and
does not roll it to tomorrow, because the roll condition
`previousTime.getTime() - Date.now() > 12 * 3600 * 1000` fires only when the
embedded time is more than 12 hours in the future, never in the past.
Conversely, a text parsed at 00:10 whose first sample reads `23:55` — a
timestamp in the future — is rolled one day further forward. -/
theorem firstSampleTime_midnight_eval :
    firstSampleTime { dayStart := 0, msOfDay := 85800000 } { value := 100, hh := 0, mm := 5 } =
      300000 ∧
    firstSampleTime { dayStart := 0, msOfDay := 85800000 } { value := 100, hh := 0, mm := 5 } ≠
      300000 + 24 * 3600 * 1000 ∧
    firstSampleTime { dayStart := 0, msOfDay := 600000 } { value := 0, hh := 23, mm := 55 } =
      86100000 + 24 * 3600 * 1000 := by
  refine ⟨?_, ?_, ?_⟩ <;> norm_num [firstSampleTime, Clock.nowMs]

/-! ## C2 — `setLatLon` and the rain cache -/

/-- C2: evaluating `setLatLon` to the new coordinates `(51, 4)` on a state
with cached rain data for `(52.1, 6.2)`. The coordinates are rounded (also
shown on `51.245`), and the memoised nearest-station id is cleared — but
`this.rainData` survives, and the next `getRainData` call serves the stale
cached sequence instead of fetching, because `resetCache` nulls the unused
closure variable `rainDataCache` rather than `this.rainData`. -/
theorem setLatLon_stale_rain_cache_eval :
    (setLatLon 51 4 c2State).lat = 51 ∧
    (setLatLon 51 4 c2State).lon = 4 ∧
    (setLatLon (10249 / 200) 4 c2State).lat = 1025 / 20 ∧
    (setLatLon 51 4 c2State).nearestWeatherStationId = none ∧
    (setLatLon 51 4 c2State).rainData = some c2CachedSamples ∧
    (getRainDataStep false (setLatLon 51 4 c2State)).2 =
      RainDataAction.cached c2CachedSamples := by
  have hlat : roundCoord (51 : ℚ) = 51 := by norm_num [roundCoord, jsRound]
  have hlon : roundCoord (4 : ℚ) = 4 := by norm_num [roundCoord, jsRound]
  refine ⟨?_, ?_, ?_, rfl, rfl, ?_⟩
  · norm_num [setLatLon, resetCache, roundCoord, jsRound, c2State]
  · norm_num [setLatLon, resetCache, roundCoord, jsRound, c2State]
  · norm_num [setLatLon, resetCache, roundCoord, jsRound, c2State]
  · simp only [getRainDataStep, setLatLon, resetCache, c2State, hlat, hlon,
      checkLocationChange]
    norm_num

/-! ## C3 — the required-fields filter and the regenMMPU exemption -/

/-- C3: evaluating the scan with `requireParams = ['regenMMPU']` on the two
stations: the code skips the nearest station A because its `regenMMPU` is the
dash sentinel and selects B, so `regenMMPU` is not exempt from the filter —
line 317 discards the result of `requireParams.filter`. Without the
requirement (and likewise with the requirement list the discarded filter
would have produced) station A is selected. -/
theorem findNearest_regen_filter_eval :
    findNearestWeatherStation distAB (some ["regenMMPU"]) [stationA, stationB] =
      some stationB ∧
    findNearestWeatherStation distAB none [stationA, stationB] = some stationA ∧
    findNearestWeatherStation distAB (some []) [stationA, stationB] = some stationA ∧
    stationA ≠ stationB := by
  refine ⟨?_, ?_, ?_, by decide⟩ <;> rfl

/-! ## C5 — the dead no-data rejection of the rain race -/

/-- C5: `responseCounter` stays `0`, so the `No url received rain data`
rejection can never fire: for every arrival sequence the race either resolves
with a matching body or falls to the five-second timer; in particular, when
both endpoints reply with non-matching bodies the race fails with `timeout`,
not with the no-data error. -/
theorem rainRace_timeout_eval :
    (∀ responses, getRawRainDataRace responses = Except.error "timeout" ∨
      ∃ b, getRawRainDataRace responses = Except.ok b) ∧
    getRawRainDataRace
      [{ error := false, body := some "service unavailable" },
       { error := false, body := some "bad gateway" }] = Except.error "timeout" ∧
    getRawRainDataRace
      [{ error := false, body := some "service unavailable" },
       { error := false, body := some "bad gateway" }] ≠
      Except.error "No url received rain data" := by
  have hsettle : ∀ (responses : List RainResponse),
      raceSettle 0 responses = none ∨ ∃ b, raceSettle 0 responses = some (Except.ok b) := by
    intro responses
    induction responses with
    | nil => exact Or.inl rfl
    | cons r rest ih =>
        match r with
        | { error := e, body := none } => exact ih
        | { error := e, body := some b } =>
            by_cases hm : matchesRainText b
            · right
              refine ⟨b, ?_⟩
              simp [raceSettle, responseStep, hm]
            · have : raceSettle 0 ({ error := e, body := some b } :: rest) =
                  raceSettle 0 rest := by
                simp [raceSettle, responseStep, hm]
              rw [this]
              exact ih
  have h2 : getRawRainDataRace
      [{ error := false, body := some "service unavailable" },
       { error := false, body := some "bad gateway" }] = Except.error "timeout" := rfl
  refine ⟨?_, h2, ?_⟩
  · intro responses
    rcases hsettle responses with h | ⟨b, h⟩
    · left
      simp [getRawRainDataRace, h]
    · right
      exact ⟨b, by simp [getRawRainDataRace, h]⟩
  · rw [h2]
    intro hcontra
    injection hcontra with hs
    exact absurd hs (by decide)

/-! ## C4 — the undefined `http` in the feed fetch -/

/-- C4: the identifier `http` does not resolve in the module, so every
`getRawFeedData` call rejects with the reference error, and consequently
`getFeedData` and all accessors built on it — nearest station, forecast and
current weather — fail on any fresh (uncached) fetch, whatever the transport
or parser would have done. -/
theorem getRawFeedData_always_fails :
    inScope "http" = false ∧
    (∀ transport, getRawFeedData transport =
      Except.error "ReferenceError: http is not defined") ∧
    (∀ (env : FeedEnv) (rct : ℚ), getFeedData env none rct =
      Except.error "ReferenceError: http is not defined") ∧
    (∀ (env : FeedEnv) (dist : WeatherStation → ℚ) (req : Option (List String))
        (memo : Option String) (rct : ℚ),
      getNearestWeatherStationData env dist req memo none rct =
        (memo, Except.error "ReferenceError: http is not defined")) ∧
    (∀ (env : FeedEnv) (rct : ℚ), getWeatherForecast env none rct =
      (none, Except.error "ReferenceError: http is not defined")) ∧
    (∀ (env : FeedEnv) (rct : ℚ), getCurrentWeather env none rct =
      Except.error "ReferenceError: http is not defined") := by
  have hs : inScope "http" = false := by decide
  have hraw : ∀ transport, getRawFeedData transport =
      Except.error "ReferenceError: http is not defined" := by
    intro transport
    simp [getRawFeedData, hs]
  have hfeed : ∀ (env : FeedEnv) (rct : ℚ), getFeedData env none rct =
      Except.error "ReferenceError: http is not defined" := by
    intro env rct
    simp [getFeedData, fetchAndParseFeed, hraw]
  refine ⟨hs, hraw, hfeed, ?_, ?_, ?_⟩
  · intro env dist req memo rct
    simp [getNearestWeatherStationData, hfeed]
  · intro env rct
    simp [getWeatherForecast, hfeed]
  · intro env rct
    simp [getCurrentWeather, hfeed]

/-! ## C10 — the destructive forecast accessor -/

lemma collectDays_twice (l : List (Option DayForecast)) :
    (collectDays (collectDays l).2).1 = [] := by
  cases l with
  | nil => rfl
  | cons h t => cases h <;> simp [collectDays]

/-- C10: `getWeatherForecast` deletes every `dag-plusN` key of the cached
feed structure after copying it, so a second call served from the same cached
entry (cache timeout 1000 ms, not yet expired) succeeds but returns a
forecast whose `dagen` array is empty, whatever the feed contained. -/
theorem getWeatherForecast_second_call_empty :
    ∀ (env : FeedEnv) (d : FeedData),
      ∃ m : Meerdaags,
        (getWeatherForecast env (getWeatherForecast env (some d) 1000).1 1000).2 =
          Except.ok m ∧
        m.dagen = [] := by
  intro env d
  have hserve : ∀ d0 : FeedData, getFeedData env (some d0) 1000 = Except.ok d0 := by
    intro d0
    simp [getFeedData]
  have h1 : getWeatherForecast env (some d) 1000 =
      (some { d with verwachting_meerdaags := forecastTransform d.verwachting_meerdaags },
       Except.ok (forecastTransform d.verwachting_meerdaags)) := by
    simp [getWeatherForecast, hserve]
  refine ⟨forecastTransform (forecastTransform d.verwachting_meerdaags), ?_, ?_⟩
  · rw [h1]
    simp [getWeatherForecast, hserve]
  · simp [forecastTransform, collectDays_twice]

/-! ## C6 — at most one pending TTL timer per cache slot -/

lemma cancelStored_eq_nil (pending : List ℕ) (stored : Option ℕ)
    (h1 : pending.length ≤ 1) (h2 : ∀ h ∈ pending, stored = some h) :
    cancelStored pending stored = [] := by
  cases pending with
  | nil => cases stored <;> rfl
  | cons a t =>
      cases t with
      | nil =>
          have ha := h2 a (by simp)
          simp [cancelStored, ha, List.erase_cons_head]
      | cons b u => simp at h1

lemma timerInv_init (ttl : Bool) : TimerInv (initTimerState ttl) := by
  refine ⟨by simp [initTimerState], by simp [initTimerState], by simp [initTimerState],
    ?_, by simp [initTimerState]⟩
  intro _
  simp [initTimerState]

lemma timerInv_step {s s1 : TimerState} (hInv : TimerInv s) (hstep : TimerStep s s1) :
    TimerInv s1 := by
  obtain ⟨hr1, hr2, hf1, hfT, hfF⟩ := hInv
  obtain ⟨e, hg, rfl⟩ := hstep
  cases e with
  | feedFetchStart =>
      dsimp only [timerGuard] at hg
      dsimp only [TimerInv, timerApply]
      refine ⟨hr1, hr2, hf1, ?_, hfF⟩
      intro hT
      rcases hg with hF | hslot
      · rw [hT] at hF
        exact absurd hF (by simp)
      · obtain ⟨hle, hp, hi, hempty⟩ := hfT hT
        obtain ⟨hp0, hi0⟩ := hempty hslot
        refine ⟨by omega, ?_, ?_, ?_⟩
        · intro hpos
          exact absurd hpos (by omega)
        · intro _
          exact ⟨hp0, rfl⟩
        · intro hfalse
          simp at hfalse
  | feedParseSuccess =>
      dsimp only [timerGuard] at hg
      dsimp only [TimerInv, timerApply]
      by_cases hT : s.cfgTTL = true
      · obtain ⟨hle, hp, hi, hempty⟩ := hfT hT
        obtain ⟨hp0, hslot⟩ := hi hg
        refine ⟨hr1, hr2, ?_, ?_, ?_⟩
        · simp [hT, hp0]
        · intro _
          refine ⟨by omega, ?_, ?_, ?_⟩
          · intro _
            exact ⟨by omega, hslot⟩
          · intro hpos
            exact absurd hpos (by omega)
          · intro hfalse
            rw [hslot] at hfalse
            simp at hfalse
        · intro hF
          rw [hT] at hF
          exact absurd hF (by simp)
      · have hF : s.cfgTTL = false := by
          revert hT
          cases s.cfgTTL <;> simp
        have hp0 := hfF hF
        refine ⟨hr1, hr2, ?_, ?_, ?_⟩
        · simp [hF, hp0]
        · intro hT2
          rw [hF] at hT2
          exact absurd hT2 (by simp)
        · intro _
          simp [hF, hp0]
  | feedParseFail =>
      dsimp only [timerGuard] at hg
      dsimp only [TimerInv, timerApply]
      refine ⟨hr1, hr2, hf1, ?_, hfF⟩
      intro hT
      obtain ⟨hle, hp, hi, hempty⟩ := hfT hT
      obtain ⟨hp0, _⟩ := hi hg
      refine ⟨by omega, ?_, ?_, ?_⟩
      · intro hpos
        exact absurd hpos (by omega)
      · intro hpos
        exact absurd hpos (by omega)
      · intro _
        exact ⟨hp0, by omega⟩
  | feedFetchReject =>
      dsimp only [timerGuard] at hg
      dsimp only [TimerInv, timerApply]
      refine ⟨hr1, hr2, hf1, ?_, hfF⟩
      intro hT
      obtain ⟨hle, hp, hi, hempty⟩ := hfT hT
      obtain ⟨hp0, hslot⟩ := hi hg
      refine ⟨by omega, ?_, ?_, ?_⟩
      · intro hpos
        exact absurd hpos (by omega)
      · intro hpos
        exact absurd hpos (by omega)
      · intro hfalse
        obtain ⟨hpe, hie⟩ := hempty hfalse
        exact ⟨hpe, by omega⟩
  | feedTimerFire =>
      dsimp only [timerGuard] at hg
      dsimp only [TimerInv, timerApply]
      refine ⟨hr1, hr2, by omega, ?_, ?_⟩
      · intro hT
        obtain ⟨hle, hp, hi, hempty⟩ := hfT hT
        obtain ⟨hi0, _⟩ := hp hg
        refine ⟨by omega, ?_, ?_, ?_⟩
        · intro hpos
          exact absurd hpos (by omega)
        · intro hpos
          exact absurd hpos (by omega)
        · intro _
          exact ⟨by omega, hi0⟩
      · intro hF
        have := hfF hF
        omega
  | rainParseSuccess =>
      have hnil : cancelStored s.rainPending s.rainStored = [] :=
        cancelStored_eq_nil s.rainPending s.rainStored hr1 hr2
      dsimp only [timerGuard] at hg
      dsimp only [TimerInv, timerApply]
      refine ⟨?_, ?_, hf1, hfT, hfF⟩
      · rw [hnil]
        simp
      · intro h hmem
        rw [hnil] at hmem
        simp at hmem
        simp [hmem]
  | rainParseFail =>
      exact ⟨hr1, hr2, hf1, hfT, hfF⟩
  | rainTimerFire h =>
      dsimp only [timerGuard] at hg
      dsimp only [TimerInv, timerApply]
      refine ⟨?_, ?_, hf1, hfT, hfF⟩
      · have := List.length_erase_of_mem hg
        omega
      · intro h2 hmem2
        exact hr2 h2 (List.mem_of_mem_erase hmem2)

/-- C6 (amended): along every reachable execution of one instance, each cache
slot carries at most one pending TTL timer — the rain slot because every
successful parse cancels the stored timer handle before installing a new one,
the feed slot because a new feed fetch can only start once the slot is empty,
after its previous timer has fired. -/
theorem cache_timers_at_most_one (s : TimerState) (h : TimerReachable s) :
    s.rainPending.length ≤ 1 ∧ s.feedPending ≤ 1 := by
  have hinv : TimerInv s := by
    induction h with
    | init ttl => exact timerInv_init ttl
    | step hr hstep ih => exact timerInv_step ih hstep
  exact ⟨hinv.1, hinv.2.2.1⟩

/-- Witness for the amended C6 at the freshly constructed instance. -/
theorem cache_timers_at_most_one_witness :
    TimerReachable (initTimerState true) ∧
    (initTimerState true).rainPending.length ≤ 1 ∧
    (initTimerState true).feedPending ≤ 1 :=
  ⟨TimerReachable.init true,
    cache_timers_at_most_one (initTimerState true) (TimerReachable.init true)⟩

/-- Counterexample to C6 as stated: a successful feed fetch installs its TTL
timer without cancelling or replacing any prior one — from a state with one
pending feed timer, the feed-success transition of the source (lines 244-246,
a bare `setTimeout` with no `clearTimeout`) leads to a state with two pending
feed timers. -/
theorem feedTimer_not_replaced_counterexample :
    TimerStep feedBadState { feedBadState with feedInFlight := 0, feedPending := 2 } ∧
    feedBadState.feedPending = 1 ∧
    ({ feedBadState with feedInFlight := 0, feedPending := 2 } : TimerState).feedPending = 2 := by
  refine ⟨⟨TimerEvent.feedParseSuccess, ?_, ?_⟩, rfl, rfl⟩
  · show 0 < feedBadState.feedInFlight
    decide
  · decide

end Buienradar
